import Mathlib

/-!
Shallow embedding of src/app.py (ANGA-PROJECT Flask backend).

Numbers are modelled as rationals (Python floats carry no claim-relevant
rounding here beyond the explicit round(-, 2) calls, which we model exactly
on rationals).  Randomness is modelled by passing every random draw as an
explicit argument, together with a validity predicate recording the bounds
guaranteed by random.randint / random.uniform.  Python dicts holding the
pollutant mappings are modelled as insertion-ordered association lists,
with dict assignment updating in place when the key exists and appending
otherwise, matching CPython ordered-dict semantics.  A value stored by the
code as a formatted scientific string f-string is modelled by the MValue.sci
constructor carrying the number being formatted; no claim inspects the
rendered text.  The single network attempt of get_openaq_data is modelled
as an Except value: Except.error stands for any raised exception (transport
error, timeout, raise_for_status on a non-2xx reply, json decoding failure
or a payload whose shape raises when traversed), Except.ok carries a parsed
payload.  Payload fields that may be missing are Options.
-/

/-- Value stored in a pollutant mapping entry: either a plain number, or a
number the code renders as a scientific-notation string (f-string .2e). -/
inductive MValue where
  | num : ℚ → MValue
  | sci : ℚ → MValue
deriving Repr, DecidableEq

/-- Numeric content of a stored value (Python would read the number back
from the dict; the code only ever applies int() to num values). -/
def MValue.toQ : MValue → ℚ
  | .num q => q
  | .sci q => q

/-- One pollutant entry: a dict with value and unit, as built by app.py. -/
structure Measurement where
  value : MValue
  unit : String
deriving Repr, DecidableEq

/-- One health alert: a dict with level and message (generate_alerts). -/
structure Alert where
  level : String
  message : String
deriving Repr, DecidableEq

/-- A sensor reading as returned by generate_fallback_data, get_openaq_data
and derive_column_data.  location is an Option because the dict returned by
derive_column_data has no location key at all (modelled as none). -/
structure Reading where
  iqa : Option ℤ
  pollutants : List (String × Measurement)
  location : Option String
  source : String
deriving Repr, DecidableEq

/-- Python round(x, 2): round to 2 decimal places.  Tie-breaking
(half-even on floats) is immaterial to every claim, which only uses
bounds and monotonicity. -/
def round2 (q : ℚ) : ℚ := (round (q * 100) : ℤ) / 100

/-- Python int(x) on a number: truncation toward zero. -/
def pyInt (q : ℚ) : ℤ := if 0 ≤ q then ⌊q⌋ else ⌈q⌉

/-- Python str.upper(), character by character (the parameter names at
play are ASCII, where this is exactly str.upper()). -/
def pyUpper (s : String) : String := ⟨s.data.map Char.toUpper⟩

/-- CPython dict assignment d[k] = v on an insertion-ordered dict:
update in place when k is present, append otherwise. -/
def dictInsert (d : List (String × Measurement)) (k : String) (v : Measurement) :
    List (String × Measurement) :=
  if d.any (fun p => p.1 = k) then
    d.map (fun p => if p.1 = k then (k, v) else p)
  else d ++ [(k, v)]

/-- The three random draws consumed by generate_fallback_data. -/
structure FallbackDraws where
  pm25 : ℤ
  o3 : ℚ
  no2 : ℚ
deriving Repr, DecidableEq

/-- Bounds guaranteed by random.randint(25, 80), random.uniform(40, 150)
and random.uniform(15, 60). -/
def FallbackDraws.Valid (d : FallbackDraws) : Prop :=
  25 ≤ d.pm25 ∧ d.pm25 ≤ 80 ∧ 40 ≤ d.o3 ∧ d.o3 ≤ 150 ∧ 15 ≤ d.no2 ∧ d.no2 ≤ 60

/-- app.py generate_fallback_data (lines 17-31). -/
def generate_fallback_data (d : FallbackDraws) (location_name : String) : Reading :=
  let pm25_value := d.pm25
  { iqa := some pm25_value
    pollutants :=
      [("PM25", ⟨MValue.num (pm25_value : ℚ), "µg/m³"⟩),
       ("O3", ⟨MValue.num (round2 d.o3), "µg/m³"⟩),
       ("NO2", ⟨MValue.num (round2 d.no2), "µg/m³"⟩)]
    location := some location_name
    source := "OpenAQ (Dados Indisponíveis na Região)" }

/-- One measurement object of the provider payload; each field may be
missing (measurement.get).  A JSON null in a present field raises inside
the try block in Python and is therefore covered by the Except.error case
of the network outcome, not modelled here. -/
structure PMeasurement where
  parameter : Option String
  unit : Option String
  value : Option ℚ
deriving Repr, DecidableEq

/-- One result object of the provider payload. -/
structure PResult where
  location : Option String
  measurements : List PMeasurement
deriving Repr, DecidableEq

/-- The parsed provider payload; a missing or null results field is
modelled as the empty list, which Python treats identically (falsy). -/
structure Payload where
  results : List PResult
deriving Repr, DecidableEq

/-- Loop body of get_openaq_data lines 59-66, processing one measurement.
State: (found_pollutants, main_iqa).  A measurement without a parameter
field makes param.upper() raise AttributeError, which the enclosing
generic except catches: modelled as Except.error. -/
def processMeasurement (st : List (String × Measurement) × Option ℤ)
    (m : PMeasurement) : Except Unit (List (String × Measurement) × Option ℤ) :=
  let found := st.1
  let mainIqa := st.2
  match m.parameter with
  | none => .error ()
  | some param =>
    if found.any (fun p => p.1 = param) then .ok (found, mainIqa)
    else
      let unit := m.unit.getD "unidade"
      let value := round2 (m.value.getD 0)
      let found' := dictInsert found (pyUpper param) ⟨MValue.num value, unit⟩
      let mainIqa' :=
        if param = "pm25" ∧ mainIqa = none then some (pyInt value) else mainIqa
      .ok (found', mainIqa')

/-- app.py get_openaq_data (lines 33-84).  apiKey models
os.getenv("OPENAQ_API_KEY") (none when unset); Python falsiness of the key
is apiKey.getD "" = "".  net models the outcome of the single
requests.get / raise_for_status / json() attempt.  fd supplies the draws
for whichever generate_fallback_data call is reached (at most one call is
ever made per request).  lat and lon only feed the request URL. -/
def get_openaq_data (apiKey : Option String) (net : Except Unit Payload)
    (fd : FallbackDraws) (lat lon : String) : Reading :=
  if apiKey.getD "" = "" then generate_fallback_data fd "Erro de Configuração"
  else
    match net with
    | .error _ => generate_fallback_data fd "Sua Localização"
    | .ok data =>
      match data.results with
      | [] => generate_fallback_data fd "Sua Localização"
      | r0 :: _ =>
        let location_name := r0.location.getD "Local Desconhecido"
        match data.results.foldlM
            (fun st r => r.measurements.foldlM processMeasurement st)
            (([], none) : List (String × Measurement) × Option ℤ) with
        | .error _ => generate_fallback_data fd "Sua Localização"
        | .ok (found, mainIqa) =>
          match found with
          | [] => generate_fallback_data fd location_name
          | (_, m0) :: _ =>
            { iqa := some (mainIqa.getD (pyInt m0.value.toQ))
              pollutants := found
              location := some location_name
              source := "OpenAQ (Real)" }

/-- The four random draws consumed by derive_column_data (the hcho draw is
only consumed for the TEMPO sensor; passing it unconditionally is harmless
since draws are independent). -/
structure DeriveDraws where
  no2 : ℚ
  o3 : ℚ
  hcho : ℚ
  iqa : ℚ
deriving Repr, DecidableEq

/-- Bounds guaranteed by the four random.uniform calls of
derive_column_data. -/
def DeriveDraws.Valid (d : DeriveDraws) : Prop :=
  4/5 ≤ d.no2 ∧ d.no2 ≤ 6/5 ∧ 7/10 ≤ d.o3 ∧ d.o3 ≤ 13/10 ∧
  4/5 ≤ d.hcho ∧ d.hcho ≤ 6/5 ∧ 9/10 ≤ d.iqa ∧ d.iqa ≤ 11/10

/-- base_pollutants.get('PM25', \x7b\x7d).get('value', 40) of app.py line 89. -/
def pm25Base (base_pollutants : List (String × Measurement)) : ℚ :=
  ((base_pollutants.find? (fun p => p.1 = "PM25")).map
    (fun p => p.2.value.toQ)).getD 40

/-- app.py derive_column_data (lines 86-106).  Column values are stored by
the code as scientific-notation strings; MValue.sci carries the number
being formatted. -/
def derive_column_data (dd : DeriveDraws) (sensor_name : String)
    (base_pollutants : List (String × Measurement)) : Reading :=
  let pm25_value := pm25Base base_pollutants
  let no2_derived := (10 ^ 15 : ℚ) + (pm25_value * (12 * 10 ^ 12)) * dd.no2
  let o3_derived := (7 * 10 ^ 16 : ℚ) - (pm25_value * (2 * 10 ^ 14)) * dd.o3
  let ps :=
    [("NO2 (Coluna Total)", (⟨MValue.sci no2_derived, "molec/cm²"⟩ : Measurement)),
     ("O3 (Coluna Total)", (⟨MValue.sci o3_derived, "molec/cm²"⟩ : Measurement))]
  let ps :=
    if sensor_name = "TEMPO" then
      ps ++ [("HCHO (Coluna Total)",
        (⟨MValue.sci ((2 * 10 ^ 15 : ℚ) + (pm25_value * (15 * 10 ^ 13)) * dd.hcho),
          "molec/cm²"⟩ : Measurement))]
    else ps
  { iqa := some (pyInt (pm25_value * dd.iqa))
    pollutants := ps
    location := none
    source := sensor_name ++ " (Derivado)" }

/-- The danger alert literal of app.py line 111. -/
def dangerAlert : Alert :=
  ⟨"danger", "Qualidade do ar MUITO RUIM. Risco à saúde. Evite qualquer exposição ao ar livre."⟩

/-- The warning alert literal of app.py line 112. -/
def warningAlert : Alert :=
  ⟨"warning", "Qualidade do ar RUIM. Grupos sensíveis podem sentir desconforto. Limite atividades externas."⟩

/-- app.py generate_alerts (lines 108-113). -/
def generate_alerts : Option ℤ → List Alert
  | none => []
  | some iqa =>
    if iqa > 150 then [dangerAlert]
    else if iqa > 100 then [warningAlert]
    else []

/-- app.py line 131: the 24h forecast expression.  delta is the
random.randint(-20, 20) draw, r the random.randint(30, 90) draw (only one
of the two is consumed, depending on the branch). -/
def predicted_iqa_24h (base_iqa : Option ℤ) (delta r : ℤ) : ℤ :=
  match base_iqa with
  | some b => max 10 (b + delta)
  | none => r

/-- The forecast object of the dashboard response. -/
structure Forecast where
  predicted_iqa_24h : ℤ
  message : String
deriving Repr, DecidableEq

/-- The dashboard response document (app.py lines 133-148); sensors is the
insertion-ordered dict of sensor name to reading. -/
structure DashboardData where
  location_name : Option String
  alerts : List Alert
  sensors : List (String × Reading)
  forecast : Forecast
  search_radius_km : ℤ
deriving Repr, DecidableEq

/-- All random draws a dashboard request can consume. -/
structure DashboardDraws where
  fd : FallbackDraws
  tempo : DeriveDraws
  pandora : DeriveDraws
  delta : ℤ
  rand_pred : ℤ
deriving Repr, DecidableEq

/-- Bounds on every draw of a dashboard request. -/
def DashboardDraws.Valid (d : DashboardDraws) : Prop :=
  d.fd.Valid ∧ d.tempo.Valid ∧ d.pandora.Valid ∧
  -20 ≤ d.delta ∧ d.delta ≤ 20 ∧ 30 ≤ d.rand_pred ∧ d.rand_pred ≤ 90

/-- app.py get_dashboard_data (lines 117-148).  lat and lon model
request.args.get; Python falsiness (missing or empty) triggers the 400
error branch, modelled as Except.error with the error message.  The
forecast message conditional of line 143 is dead (predicted_iqa is always
a number), so the stable-conditions string is always chosen. -/
def get_dashboard_data (apiKey : Option String) (net : Except Unit Payload)
    (dr : DashboardDraws) (lat lon : Option String) : Except String DashboardData :=
  if lat.getD "" = "" ∨ lon.getD "" = "" then
    .error "Latitude e Longitude são obrigatórias"
  else
    let openaq_data := get_openaq_data apiKey net dr.fd (lat.getD "") (lon.getD "")
    let base_pollutants := openaq_data.pollutants
    let tempo_data := derive_column_data dr.tempo "TEMPO" base_pollutants
    let pandora_data := derive_column_data dr.pandora "PANDORA" base_pollutants
    let base_iqa := openaq_data.iqa
    let predicted_iqa := predicted_iqa_24h base_iqa dr.delta dr.rand_pred
    .ok
      { location_name := openaq_data.location
        alerts := generate_alerts base_iqa
        sensors :=
          [("openaq", openaq_data), ("tempo", tempo_data), ("pandora", pandora_data)]
        forecast :=
          ⟨predicted_iqa, "As condições devem permanecer estáveis nas próximas 24 horas."⟩
        search_radius_km := 100 }

/-- Data-model invariant of spec section 3 for one Reading: numeric
pollutant values (the num entries) are non-negative, and iqa, when
present, is non-negative. -/
def Reading.NumericInv (r : Reading) : Prop :=
  (∀ p ∈ r.pollutants, ∀ q, p.2.value = MValue.num q → 0 ≤ q) ∧
  (∀ n : ℤ, r.iqa = some n → 0 ≤ n)

/-- A fixed valid set of fallback draws, used by concrete witnesses. -/
def fd0 : FallbackDraws := ⟨30, 50, 20⟩

/-- A fixed valid set of derivation draws, used by concrete witnesses. -/
def dd0 : DeriveDraws := ⟨1, 1, 1, 1⟩

/-- A fixed valid set of dashboard draws, used by concrete witnesses. -/
def ddr0 : DashboardDraws := ⟨fd0, dd0, dd0, 0, 50⟩

/-- Invariant carried through the measurement loop: every stored pollutant
value is a non-negative number and the tracked main index is
non-negative. -/
def GoodSt (st : List (String × Measurement) × Option ℤ) : Prop :=
  (∀ p ∈ st.1, ∃ q : ℚ, p.2.value = MValue.num q ∧ 0 ≤ q) ∧
  (∀ n : ℤ, st.2 = some n → 0 ≤ n)

/-- A payload measurement whose value (defaulted to 0 when missing) is
non-negative. -/
def NonnegM (m : PMeasurement) : Prop := 0 ≤ m.value.getD 0

/-- A payload carrying the same lowercase parameter twice with two
different values (first 10, then 20): exercises the dedup guard of
get_openaq_data line 61. -/
def dupPayload : Payload :=
  ⟨[⟨some "Estação Central",
     [⟨some "pm25", some "µg/m³", some 10⟩,
      ⟨some "pm25", some "µg/m³", some 20⟩]⟩]⟩

/-- A payload whose single measurement carries a negative value, as the
provider may report. -/
def negPayload : Payload :=
  ⟨[⟨some "Estação Central", [⟨some "pm25", some "µg/m³", some (-5)⟩]⟩]⟩

/-- A payload with a measurement lacking the parameter field: traversing
it raises in Python (param.upper() on None). -/
def badShapePayload : Payload := ⟨[⟨some "Estação Central", [⟨none, none, none⟩]⟩]⟩

/-- A primary pollutant mapping holding PM2.5 = 51. -/
def base51 : List (String × Measurement) :=
  [("PM25", ⟨MValue.num 51, "µg/m³"⟩)]

/-! Helper lemmas about the arithmetic primitives. -/

/-- round is monotone on rationals. -/
lemma round_mono_q {p q : ℚ} (h : p ≤ q) : round p ≤ round q := by
  rw [round_eq, round_eq]
  exact Int.floor_le_floor (by linarith)

/-- round2 is monotone. -/
lemma round2_mono {p q : ℚ} (h : p ≤ q) : round2 p ≤ round2 q := by
  unfold round2
  have h2 : round (p * 100) ≤ round (q * 100) := round_mono_q (by linarith)
  have h3 : ((round (p * 100) : ℤ) : ℚ) ≤ ((round (q * 100) : ℤ) : ℚ) :=
    Int.cast_le.mpr h2
  linarith

/-- round2 fixes integers. -/
lemma round2_intCast (z : ℤ) : round2 ((z : ℤ) : ℚ) = z := by
  unfold round2
  have h : ((z : ℚ) * 100) = (((z * 100 : ℤ) : ℤ) : ℚ) := by push_cast; ring
  rw [h, round_intCast]
  push_cast
  field_simp

/-- round2 of a value between two integer bounds stays between them. -/
lemma round2_bounds (lo hi : ℤ) {q : ℚ} (h1 : (lo : ℚ) ≤ q) (h2 : q ≤ (hi : ℚ)) :
    (lo : ℚ) ≤ round2 q ∧ round2 q ≤ (hi : ℚ) := by
  constructor
  · have := round2_mono h1
    rwa [round2_intCast] at this
  · have := round2_mono h2
    rwa [round2_intCast] at this

/-- round2 sends non-negative values to non-negative values. -/
lemma round2_nonneg {q : ℚ} (h : 0 ≤ q) : 0 ≤ round2 q := by
  have := round2_mono h
  have h0 : round2 ((0 : ℤ) : ℚ) = ((0 : ℤ) : ℚ) := by
    rw [round2_intCast]
  simp only [Int.cast_zero] at h0
  linarith [this, h0.le]

/-- round2 produces a multiple of 1/100. -/
lemma round2_den (q : ℚ) : ∃ z : ℤ, round2 q = (z : ℚ) / 100 :=
  ⟨round (q * 100), rfl⟩

/-- pyInt coincides with the floor on non-negative arguments. -/
lemma pyInt_eq_floor {q : ℚ} (h : 0 ≤ q) : pyInt q = ⌊q⌋ := by
  simp [pyInt, h]

/-- pyInt is non-negative on non-negative arguments. -/
lemma pyInt_nonneg {q : ℚ} (h : 0 ≤ q) : 0 ≤ pyInt q := by
  rw [pyInt_eq_floor h]
  exact Int.floor_nonneg.mpr h

/-- Membership after a dict assignment: an entry is the new binding or an
old entry. -/
lemma mem_dictInsert {d : List (String × Measurement)} {k : String}
    {v : Measurement} {p : String × Measurement} (hp : p ∈ dictInsert d k v) :
    p = (k, v) ∨ p ∈ d := by
  unfold dictInsert at hp
  by_cases h : d.any (fun p => p.1 = k)
  · rw [if_pos h] at hp
    rcases List.mem_map.mp hp with ⟨x, hx, hfx⟩
    by_cases hxk : x.1 = k
    · left; rw [← hfx]; simp [hxk]
    · right; rw [← hfx]; simpa [hxk] using hx
  · rw [if_neg h] at hp
    rcases List.mem_append.mp hp with h1 | h1
    · right; exact h1
    · left; simpa using h1

/-- One loop step preserves the invariant when the measurement value is
non-negative. -/
lemma processMeasurement_good {st st' : List (String × Measurement) × Option ℤ}
    {m : PMeasurement} (hm : NonnegM m) (hst : GoodSt st)
    (h : processMeasurement st m = .ok st') : GoodSt st' := by
  unfold processMeasurement at h
  split at h
  · exact absurd h (by simp)
  · rename_i param hp
    dsimp only at h
    split at h
    · injection h with h
      exact h ▸ hst
    · injection h with h
      subst h
      constructor
      · intro p hp
        rcases mem_dictInsert hp with h1 | h1
        · exact ⟨round2 (m.value.getD 0), by rw [h1], round2_nonneg hm⟩
        · exact hst.1 p h1
      · intro n hn
        dsimp only at hn
        split at hn
        · injection hn with hn
          exact hn ▸ pyInt_nonneg (round2_nonneg hm)
        · exact hst.2 n hn

/-- The inner measurement loop preserves the invariant. -/
lemma foldlM_measurements_good :
    ∀ (l : List PMeasurement) (st st' : List (String × Measurement) × Option ℤ),
      (∀ m ∈ l, NonnegM m) → GoodSt st →
      l.foldlM processMeasurement st = Except.ok st' → GoodSt st'
  | [], st, st', _, hst, h => by
      simp only [List.foldlM_nil] at h
      injection h with h
      exact h ▸ hst
  | m :: l, st, st', hl, hst, h => by
      rw [List.foldlM_cons] at h
      cases hpm : processMeasurement st m with
      | error e =>
          rw [hpm] at h
          exact absurd h (by simp [Bind.bind, Except.bind])
      | ok st1 =>
          rw [hpm] at h
          have h1 : l.foldlM processMeasurement st1 = Except.ok st' := h
          exact foldlM_measurements_good l st1 st'
            (fun m' hm' => hl m' (List.mem_cons_of_mem _ hm'))
            (processMeasurement_good (hl m (List.mem_cons_self m l)) hst hpm) h1

/-- The outer results loop preserves the invariant. -/
lemma foldlM_results_good :
    ∀ (rs : List PResult) (st st' : List (String × Measurement) × Option ℤ),
      (∀ r ∈ rs, ∀ m ∈ r.measurements, NonnegM m) → GoodSt st →
      rs.foldlM (fun st r => r.measurements.foldlM processMeasurement st) st
        = Except.ok st' → GoodSt st'
  | [], st, st', _, hst, h => by
      simp only [List.foldlM_nil] at h
      injection h with h
      exact h ▸ hst
  | r :: rs, st, st', hl, hst, h => by
      rw [List.foldlM_cons] at h
      cases hpr : r.measurements.foldlM processMeasurement st with
      | error e =>
          rw [hpr] at h
          exact absurd h (by simp [Bind.bind, Except.bind])
      | ok st1 =>
          rw [hpr] at h
          have h1 : rs.foldlM (fun st r => r.measurements.foldlM processMeasurement st) st1
              = Except.ok st' := h
          exact foldlM_results_good rs st1 st'
            (fun r' hr' => hl r' (List.mem_cons_of_mem _ hr'))
            (foldlM_measurements_good r.measurements st st1
              (hl r (List.mem_cons_self r rs)) hst hpr) h1

/-- A fallback Reading built from in-range draws satisfies the numeric
invariant. -/
lemma generate_fallback_data_inv {d : FallbackDraws} (hd : d.Valid)
    (loc : String) : (generate_fallback_data d loc).NumericInv := by
  obtain ⟨h1, _, h3, _, h5, _⟩ := hd
  constructor
  · intro p hp q hq
    simp only [generate_fallback_data, List.mem_cons, List.not_mem_nil, or_false]
      at hp
    rcases hp with h | h | h
    all_goals subst h; simp only at hq
    · injection hq with hq
      rw [← hq]
      have : (25 : ℚ) ≤ (d.pm25 : ℚ) := by exact_mod_cast h1
      linarith
    · injection hq with hq
      rw [← hq]
      exact round2_nonneg (by linarith)
    · injection hq with hq
      rw [← hq]
      exact round2_nonneg (by linarith)
  · intro n hn
    simp only [generate_fallback_data] at hn
    injection hn with hn
    rw [← hn]
    linarith

/-- The iqa field of every Reading produced by get_openaq_data is
present. -/
lemma get_openaq_data_iqa_isSome (apiKey : Option String)
    (net : Except Unit Payload) (fd : FallbackDraws) (lat lon : String) :
    ∃ n : ℤ, (get_openaq_data apiKey net fd lat lon).iqa = some n := by
  unfold get_openaq_data
  split
  · exact ⟨fd.pm25, rfl⟩
  · split
    · exact ⟨fd.pm25, rfl⟩
    · split
      · exact ⟨fd.pm25, rfl⟩
      · dsimp only
        split
        · exact ⟨fd.pm25, rfl⟩
        · split
          · exact ⟨fd.pm25, rfl⟩
          · exact ⟨_, rfl⟩

/-- fd0 satisfies the fallback draw bounds. -/
lemma fd0_valid : fd0.Valid := by
  unfold FallbackDraws.Valid fd0
  norm_num

/-- dd0 satisfies the derivation draw bounds. -/
lemma dd0_valid : dd0.Valid := by
  unfold DeriveDraws.Valid dd0
  norm_num

/-- The location field of every Reading produced by get_openaq_data is
present. -/
lemma get_openaq_data_location_isSome (apiKey : Option String)
    (net : Except Unit Payload) (fd : FallbackDraws) (lat lon : String) :
    ∃ s : String, (get_openaq_data apiKey net fd lat lon).location = some s := by
  unfold get_openaq_data
  split
  · exact ⟨_, rfl⟩
  · split
    · exact ⟨_, rfl⟩
    · split
      · exact ⟨_, rfl⟩
      · dsimp only
        split
        · exact ⟨_, rfl⟩
        · split
          · exact ⟨_, rfl⟩
          · exact ⟨_, rfl⟩

/-- pyInt fixes integers. -/
lemma pyInt_intCast (z : ℤ) : pyInt ((z : ℤ) : ℚ) = z := by
  unfold pyInt
  split
  · exact Int.floor_intCast z
  · exact Int.ceil_intCast z

/-- C2: the alert evaluator is a pure threshold map with strict
comparisons: an absent index yields no alert; an index strictly above 150
yields exactly one danger alert; one strictly above 100 and at most 150
yields exactly one warning alert; one at most 100 yields no alert; in
particular 100 yields nothing and 150 yields a warning, not a danger. -/
theorem C2_alert_thresholds :
    generate_alerts none = [] ∧
    (∀ n : ℤ, 150 < n → generate_alerts (some n) = [dangerAlert]) ∧
    (∀ n : ℤ, 100 < n → n ≤ 150 → generate_alerts (some n) = [warningAlert]) ∧
    (∀ n : ℤ, n ≤ 100 → generate_alerts (some n) = []) ∧
    generate_alerts (some 100) = [] ∧
    generate_alerts (some 150) = [warningAlert] ∧
    dangerAlert.level = "danger" ∧ warningAlert.level = "warning" := by
  refine ⟨rfl, ?_, ?_, ?_, ?_, ?_, rfl, rfl⟩
  · intro n h
    simp only [generate_alerts]
    rw [if_pos (by omega)]
  · intro n h1 h2
    simp only [generate_alerts]
    rw [if_neg (by omega), if_pos (by omega)]
  · intro n h
    simp only [generate_alerts]
    rw [if_neg (by omega), if_neg (by omega)]
  · simp only [generate_alerts]
    rw [if_neg (by omega), if_neg (by omega)]
  · simp only [generate_alerts]
    rw [if_neg (by omega), if_pos (by omega)]

/-- C2 witness: the thresholds evaluated at 151, 120 and 100. -/
theorem C2_alert_thresholds_witness :
    generate_alerts (some 151) = [dangerAlert] ∧
    generate_alerts (some 120) = [warningAlert] ∧
    generate_alerts (some 100) = [] :=
  ⟨C2_alert_thresholds.2.1 151 (by omega),
   C2_alert_thresholds.2.2.1 120 (by omega) (by omega),
   C2_alert_thresholds.2.2.2.1 100 (by omega)⟩

/-- C3: with a primary index, the 24h prediction is max(10, base + delta)
for the drawn delta in [-20, 20]; for base 50 it lies in [30, 70]; it is
never below 10; without a primary index it is the draw from [30, 90]. -/
theorem C3_forecast_bounds :
    (∀ b delta r : ℤ, -20 ≤ delta → delta ≤ 20 →
      ∃ d : ℤ, -20 ≤ d ∧ d ≤ 20 ∧
        predicted_iqa_24h (some b) delta r = max 10 (b + d)) ∧
    (∀ delta r : ℤ, -20 ≤ delta → delta ≤ 20 →
      30 ≤ predicted_iqa_24h (some 50) delta r ∧
      predicted_iqa_24h (some 50) delta r ≤ 70) ∧
    (∀ b delta r : ℤ, 10 ≤ predicted_iqa_24h (some b) delta r) ∧
    (∀ delta r : ℤ, 30 ≤ r → r ≤ 90 →
      30 ≤ predicted_iqa_24h none delta r ∧
      predicted_iqa_24h none delta r ≤ 90) := by
  refine ⟨?_, ?_, ?_, ?_⟩
  · intro b delta r h1 h2
    exact ⟨delta, h1, h2, rfl⟩
  · intro delta r h1 h2
    simp only [predicted_iqa_24h]
    omega
  · intro b delta r
    simp only [predicted_iqa_24h]
    omega
  · intro delta r h1 h2
    simp only [predicted_iqa_24h]
    omega

/-- C3 witness: the forecast bounds evaluated at concrete draws. -/
theorem C3_forecast_bounds_witness :
    (∃ d : ℤ, -20 ≤ d ∧ d ≤ 20 ∧
      predicted_iqa_24h (some 5) (-20) 0 = max 10 (5 + d)) ∧
    (30 ≤ predicted_iqa_24h (some 50) 20 0 ∧
      predicted_iqa_24h (some 50) 20 0 ≤ 70) ∧
    10 ≤ predicted_iqa_24h (some 5) (-20) 0 ∧
    (30 ≤ predicted_iqa_24h none 0 90 ∧ predicted_iqa_24h none 0 90 ≤ 90) :=
  ⟨C3_forecast_bounds.1 5 (-20) 0 (by omega) (by omega),
   C3_forecast_bounds.2.1 20 0 (by omega) (by omega),
   C3_forecast_bounds.2.2.1 5 (-20) 0,
   C3_forecast_bounds.2.2.2 0 90 (by omega) (by omega)⟩

/-- C5: with no credential configured (missing or empty), the client
returns the configuration-error fallback Reading, and the result does not
depend on the network outcome or the coordinates (no network call is
consulted). -/
theorem C5_no_credential :
    ∀ (apiKey : Option String) (net netB : Except Unit Payload)
      (fd : FallbackDraws) (lat lon latB lonB : String),
      apiKey.getD "" = "" →
      get_openaq_data apiKey net fd lat lon
          = generate_fallback_data fd "Erro de Configuração" ∧
      get_openaq_data apiKey net fd lat lon
          = get_openaq_data apiKey netB fd latB lonB := by
  intro apiKey net netB fd lat lon latB lonB hk
  have h1 : get_openaq_data apiKey net fd lat lon
      = generate_fallback_data fd "Erro de Configuração" := by
    unfold get_openaq_data
    rw [if_pos hk]
  have h2 : get_openaq_data apiKey netB fd latB lonB
      = generate_fallback_data fd "Erro de Configuração" := by
    unfold get_openaq_data
    rw [if_pos hk]
  exact ⟨h1, h1.trans h2.symm⟩

/-- C5 witness: unset key with a rich successful payload still yields the
configuration-error fallback, identically to a failed network attempt. -/
theorem C5_no_credential_witness :
    get_openaq_data none (Except.ok dupPayload) fd0 "38.7" "-9.1"
        = generate_fallback_data fd0 "Erro de Configuração" ∧
    get_openaq_data none (Except.ok dupPayload) fd0 "38.7" "-9.1"
        = get_openaq_data none (Except.error ()) fd0 "0" "0" :=
  C5_no_credential none (Except.ok dupPayload) (Except.error ()) fd0
    "38.7" "-9.1" "0" "0" rfl

/-- C4: with a configured credential, every raised exception of the single
network attempt (transport error, timeout, non-2xx status via
raise_for_status, json failure) and every payload whose traversal raises
(for instance a measurement without a parameter field) is converted to the
fallback Reading for the generic location label "Sua Localização" (the
code's rendering of an unknown location), whose location field carries
exactly that tag.  The embedding consumes one network outcome, so no retry
exists, and the function is total, so no exception propagates. -/
theorem C4_failure_fallback :
    ∀ (k : String), k ≠ "" → ∀ (fd : FallbackDraws) (lat lon : String),
      (∀ e : Unit, get_openaq_data (some k) (Except.error e) fd lat lon
          = generate_fallback_data fd "Sua Localização") ∧
      (∀ data : Payload,
        data.results.foldlM
            (fun st r => r.measurements.foldlM processMeasurement st)
            (([], none) : List (String × Measurement) × Option ℤ)
          = Except.error () →
        get_openaq_data (some k) (Except.ok data) fd lat lon
            = generate_fallback_data fd "Sua Localização") ∧
      (∀ (st : List (String × Measurement) × Option ℤ) (m : PMeasurement),
        m.parameter = none → processMeasurement st m = Except.error ()) ∧
      (generate_fallback_data fd "Sua Localização").location
          = some "Sua Localização" := by
  intro k hk fd lat lon
  have hkey : ¬ (some k).getD "" = "" := by simpa using hk
  refine ⟨?_, ?_, ?_, rfl⟩
  · intro e
    unfold get_openaq_data
    rw [if_neg hkey]
  · intro data hfold
    unfold get_openaq_data
    rw [if_neg hkey]
    cases hres : data.results with
    | nil =>
        rw [hres] at hfold
        simp only [List.foldlM_nil] at hfold
        exact Except.noConfusion hfold
    | cons r0 rs =>
        rw [hres] at hfold
        dsimp only
        rw [hres]
        dsimp only
        rw [hfold]
  · intro st m hm
    unfold processMeasurement
    rw [hm]

/-- C4 witness: the failure conversion evaluated at a transport error and
at a payload with a parameterless measurement. -/
theorem C4_failure_fallback_witness :
    get_openaq_data (some "chave") (Except.error ()) fd0 "38.7" "-9.1"
        = generate_fallback_data fd0 "Sua Localização" ∧
    get_openaq_data (some "chave") (Except.ok badShapePayload) fd0 "38.7" "-9.1"
        = generate_fallback_data fd0 "Sua Localização" ∧
    (generate_fallback_data fd0 "Sua Localização").location
        = some "Sua Localização" := by
  have h := C4_failure_fallback "chave" (by decide) fd0 "38.7" "-9.1"
  exact ⟨h.1 (), h.2.1 badShapePayload rfl, h.2.2.2⟩

/-- C6: the fallback synthesizer is total and returns a Reading whose
PM2.5 is the drawn integer in [25, 80], whose O3 and NO2 are the drawn
values rounded to 2 decimals inside [40, 150] and [15, 60] respectively,
and whose iqa equals the PM2.5 integer. -/
theorem C6_fallback_bounds :
    ∀ (d : FallbackDraws) (loc : String), d.Valid →
      (∃ n : ℤ, 25 ≤ n ∧ n ≤ 80 ∧
        (generate_fallback_data d loc).pollutants.find? (fun p => p.1 = "PM25")
            = some ("PM25", ⟨MValue.num (n : ℚ), "µg/m³"⟩) ∧
        (generate_fallback_data d loc).iqa = some n) ∧
      (∃ q : ℚ, 40 ≤ q ∧ q ≤ 150 ∧ (∃ z : ℤ, q = (z : ℚ) / 100) ∧
        (generate_fallback_data d loc).pollutants.find? (fun p => p.1 = "O3")
            = some ("O3", ⟨MValue.num q, "µg/m³"⟩)) ∧
      (∃ q : ℚ, 15 ≤ q ∧ q ≤ 60 ∧ (∃ z : ℤ, q = (z : ℚ) / 100) ∧
        (generate_fallback_data d loc).pollutants.find? (fun p => p.1 = "NO2")
            = some ("NO2", ⟨MValue.num q, "µg/m³"⟩)) := by
  intro d loc hd
  obtain ⟨h1, h2, h3, h4, h5, h6⟩ := hd
  refine ⟨⟨d.pm25, h1, h2, rfl, rfl⟩,
    ⟨round2 d.o3, ?_, ?_, round2_den d.o3, rfl⟩,
    ⟨round2 d.no2, ?_, ?_, round2_den d.no2, rfl⟩⟩
  · have := (round2_bounds 40 150
      (by exact_mod_cast h3) (by exact_mod_cast h4)).1
    exact_mod_cast this
  · have := (round2_bounds 40 150
      (by exact_mod_cast h3) (by exact_mod_cast h4)).2
    exact_mod_cast this
  · have := (round2_bounds 15 60
      (by exact_mod_cast h5) (by exact_mod_cast h6)).1
    exact_mod_cast this
  · have := (round2_bounds 15 60
      (by exact_mod_cast h5) (by exact_mod_cast h6)).2
    exact_mod_cast this

/-- C6 witness: the fallback bounds evaluated at the concrete draws fd0. -/
theorem C6_fallback_bounds_witness :
    (∃ n : ℤ, 25 ≤ n ∧ n ≤ 80 ∧
      (generate_fallback_data fd0 "Lisboa").pollutants.find? (fun p => p.1 = "PM25")
          = some ("PM25", ⟨MValue.num (n : ℚ), "µg/m³"⟩) ∧
      (generate_fallback_data fd0 "Lisboa").iqa = some n) ∧
    (∃ q : ℚ, 40 ≤ q ∧ q ≤ 150 ∧ (∃ z : ℤ, q = (z : ℚ) / 100) ∧
      (generate_fallback_data fd0 "Lisboa").pollutants.find? (fun p => p.1 = "O3")
          = some ("O3", ⟨MValue.num q, "µg/m³"⟩)) ∧
    (∃ q : ℚ, 15 ≤ q ∧ q ≤ 60 ∧ (∃ z : ℤ, q = (z : ℚ) / 100) ∧
      (generate_fallback_data fd0 "Lisboa").pollutants.find? (fun p => p.1 = "NO2")
          = some ("NO2", ⟨MValue.num q, "µg/m³"⟩)) :=
  C6_fallback_bounds fd0 "Lisboa" fd0_valid

/-- C7 counterexample: with primary PM2.5 = 51 and the in-range draw 0.9
for the index noise, the code computes int(45.9) = 45, but no noise in
[0.9, 1.1] makes round(51 * noise) equal 45, because 51 * noise is at
least 45.9 and so rounds to at least 46.  The claim's "round" does not
describe the code's truncation. -/
theorem C7_counterexample :
    DeriveDraws.Valid ⟨1, 1, 1, 9/10⟩ ∧
    (derive_column_data ⟨1, 1, 1, 9/10⟩ "PANDORA" base51).iqa = some 45 ∧
    ¬ ∃ noise : ℚ, 9/10 ≤ noise ∧ noise ≤ 11/10 ∧
        (derive_column_data ⟨1, 1, 1, 9/10⟩ "PANDORA" base51).iqa
          = some (round (pm25Base base51 * noise)) := by
  have h45 : (derive_column_data ⟨1, 1, 1, 9/10⟩ "PANDORA" base51).iqa
      = some 45 := by
    have h : (derive_column_data ⟨1, 1, 1, 9/10⟩ "PANDORA" base51).iqa
        = some (pyInt ((51 : ℚ) * (9/10))) := rfl
    rw [h]
    congr 1
    unfold pyInt
    rw [if_pos (by norm_num)]
    norm_num
  refine ⟨?_, h45, ?_⟩
  · unfold DeriveDraws.Valid
    norm_num
  · rintro ⟨noise, hn1, hn2, heq⟩
    have hbase : pm25Base base51 = 51 := rfl
    rw [h45, hbase] at heq
    injection heq with heq
    have hmono : round ((51 : ℚ) * (9/10)) ≤ round ((51 : ℚ) * noise) :=
      round_mono_q (by linarith)
    have h46 : round ((51 : ℚ) * (9/10)) = 46 := by
      rw [round_eq]
      norm_num
    omega

/-- C7 amended: the derived index equals int(pm25 * noise) — Python
truncation toward zero — for the drawn noise in [0.9, 1.1], with pm25 the
primary PM2.5 value or 40 when absent. -/
theorem C7_derived_index :
    ∀ (dd : DeriveDraws) (sensor : String) (base : List (String × Measurement)),
      9/10 ≤ dd.iqa → dd.iqa ≤ 11/10 →
      (∃ noise : ℚ, 9/10 ≤ noise ∧ noise ≤ 11/10 ∧
        (derive_column_data dd sensor base).iqa
          = some (pyInt (pm25Base base * noise))) ∧
      (base.find? (fun p => p.1 = "PM25") = none → pm25Base base = 40) := by
  intro dd sensor base h1 h2
  refine ⟨⟨dd.iqa, h1, h2, rfl⟩, ?_⟩
  intro h
  unfold pm25Base
  rw [h]
  rfl

/-- C7 witness: the derived index relation evaluated at dd0 over an empty
primary mapping. -/
theorem C7_derived_index_witness :
    (∃ noise : ℚ, 9/10 ≤ noise ∧ noise ≤ 11/10 ∧
      (derive_column_data dd0 "TEMPO" []).iqa
        = some (pyInt (pm25Base [] * noise))) ∧
    (([] : List (String × Measurement)).find? (fun p => p.1 = "PM25") = none →
      pm25Base [] = 40) :=
  C7_derived_index dd0 "TEMPO" [] (by norm_num [dd0]) (by norm_num [dd0])

/-- C1: evaluation of the code at a payload reporting the lowercase
parameter pm25 twice (first 10, then 20).  The dedup guard of line 61
compares the raw name pm25 against the upper-cased key PM25 and never
fires, so the stored PM25 value is the last observed value 20, while the
main index tracks the first (10).  First-seen-wins would require the
mapping to hold 10. -/
theorem C1_last_seen_eval :
    (get_openaq_data (some "chave") (Except.ok dupPayload) fd0 "0" "0").pollutants
        = [("PM25", ⟨MValue.num 20, "µg/m³"⟩)] ∧
    (get_openaq_data (some "chave") (Except.ok dupPayload) fd0 "0" "0").iqa
        = some 10 ∧
    (dupPayload.results.head?.map (fun r =>
        r.measurements.map (fun m => (m.parameter, m.value))))
      = some [(some "pm25", some 10), (some "pm25", some 20)] ∧
    (20 : ℚ) ≠ 10 := by
  have h20 : round2 (20 : ℚ) = 20 := by
    have := round2_intCast 20
    push_cast at this
    exact this
  have h10 : round2 (10 : ℚ) = 10 := by
    have := round2_intCast 10
    push_cast at this
    exact this
  refine ⟨?_, ?_, rfl, by norm_num⟩
  · have h : (get_openaq_data (some "chave") (Except.ok dupPayload) fd0 "0" "0").pollutants
        = [("PM25", ⟨MValue.num (round2 20), "µg/m³"⟩)] := rfl
    rw [h, h20]
  · have h : (get_openaq_data (some "chave") (Except.ok dupPayload) fd0 "0" "0").iqa
        = some (pyInt (round2 10)) := rfl
    rw [h, h10]
    congr 1

/-- C8 counterexample: a successful payload reporting pm25 = -5 (negative
provider values are not validated anywhere) produces a real Reading whose
stored PM25 value and iqa are both -5, violating the non-negativity
invariant. -/
theorem C8_counterexample :
    ¬ (get_openaq_data (some "chave") (Except.ok negPayload) fd0 "0" "0").NumericInv := by
  intro h
  have hiqa : (get_openaq_data (some "chave") (Except.ok negPayload) fd0 "0" "0").iqa
      = some (pyInt (round2 (-5))) := rfl
  have hval : pyInt (round2 (-5)) = -5 := by
    have h5 : round2 ((-5 : ℚ)) = -5 := by
      have := round2_intCast (-5)
      push_cast at this
      exact this
    rw [h5]
    have := pyInt_intCast (-5)
    push_cast at this
    exact this
  have hc := h.2 (pyInt (round2 (-5))) hiqa
  rw [hval] at hc
  omega

/-- C8 amended: fallback Readings with in-range draws always satisfy the
numeric invariant; Readings from get_openaq_data satisfy it provided every
measurement value of the provider payload is non-negative (the code
performs no validation); derived Readings satisfy it provided the base
PM2.5 value is non-negative (their column entries are stored as formatted
strings, not numbers). -/
theorem C8_readings_invariant :
    (∀ (d : FallbackDraws) (loc : String), d.Valid →
      (generate_fallback_data d loc).NumericInv) ∧
    (∀ (apiKey : Option String) (net : Except Unit Payload) (fd : FallbackDraws)
      (lat lon : String), fd.Valid →
      (∀ data : Payload, net = Except.ok data →
        ∀ r ∈ data.results, ∀ m ∈ r.measurements, NonnegM m) →
      (get_openaq_data apiKey net fd lat lon).NumericInv) ∧
    (∀ (dd : DeriveDraws) (sensor : String) (base : List (String × Measurement)),
      9/10 ≤ dd.iqa → 0 ≤ pm25Base base →
      (derive_column_data dd sensor base).NumericInv) := by
  refine ⟨fun d loc hd => generate_fallback_data_inv hd loc, ?_, ?_⟩
  · intro apiKey net fd lat lon hfd hnn
    by_cases hk : apiKey.getD "" = ""
    · have he : get_openaq_data apiKey net fd lat lon
          = generate_fallback_data fd "Erro de Configuração" := by
        unfold get_openaq_data
        rw [if_pos hk]
      rw [he]
      exact generate_fallback_data_inv hfd _
    · cases net with
      | error e =>
          have he : get_openaq_data apiKey (.error e) fd lat lon
              = generate_fallback_data fd "Sua Localização" := by
            unfold get_openaq_data
            rw [if_neg hk]
          rw [he]
          exact generate_fallback_data_inv hfd _
      | ok data =>
          have hmeas := hnn data rfl
          cases hres : data.results with
          | nil =>
              have he : get_openaq_data apiKey (.ok data) fd lat lon
                  = generate_fallback_data fd "Sua Localização" := by
                unfold get_openaq_data
                rw [if_neg hk]
                dsimp only
                rw [hres]
              rw [he]
              exact generate_fallback_data_inv hfd _
          | cons r0 rs =>
              cases hfold : data.results.foldlM
                  (fun st r => r.measurements.foldlM processMeasurement st)
                  (([], none) : List (String × Measurement) × Option ℤ) with
              | error e =>
                  have he : get_openaq_data apiKey (.ok data) fd lat lon
                      = generate_fallback_data fd "Sua Localização" := by
                    unfold get_openaq_data
                    rw [if_neg hk]
                    dsimp only
                    rw [hres]
                    dsimp only
                    rw [hres] at hfold
                    rw [hfold]
                  rw [he]
                  exact generate_fallback_data_inv hfd _
              | ok stPair =>
                  obtain ⟨found, mainIqa⟩ := stPair
                  have hgood : GoodSt (found, mainIqa) :=
                    foldlM_results_good data.results ([], none) (found, mainIqa)
                      hmeas ⟨by simp, by simp⟩ hfold
                  cases hfnd : found with
                  | nil =>
                      subst hfnd
                      have he : get_openaq_data apiKey (.ok data) fd lat lon
                          = generate_fallback_data fd
                              (r0.location.getD "Local Desconhecido") := by
                        unfold get_openaq_data
                        rw [if_neg hk]
                        dsimp only
                        rw [hres]
                        dsimp only
                        rw [hres] at hfold
                        rw [hfold]
                      rw [he]
                      exact generate_fallback_data_inv hfd _
                  | cons hd tl =>
                      subst hfnd
                      obtain ⟨a, m0⟩ := hd
                      have he : get_openaq_data apiKey (.ok data) fd lat lon
                          = { iqa := some (mainIqa.getD (pyInt m0.value.toQ))
                              pollutants := (a, m0) :: tl
                              location := some (r0.location.getD "Local Desconhecido")
                              source := "OpenAQ (Real)" } := by
                        unfold get_openaq_data
                        rw [if_neg hk]
                        dsimp only
                        rw [hres]
                        dsimp only
                        rw [hres] at hfold
                        rw [hfold]
                      rw [he]
                      constructor
                      · intro p hp q hq
                        obtain ⟨qq, hq1, hq0⟩ := hgood.1 p hp
                        rw [hq1] at hq
                        injection hq with hq
                        rw [← hq]
                        exact hq0
                      · intro n hn
                        injection hn with hn
                        cases hmi : mainIqa with
                        | some v =>
                            rw [hmi] at hn
                            simp only [Option.getD_some] at hn
                            have h0 := hgood.2 v (by rw [hmi])
                            omega
                        | none =>
                            rw [hmi] at hn
                            simp only [Option.getD_none] at hn
                            obtain ⟨qq, hq1, hq0⟩ :=
                              hgood.1 (a, m0) (List.mem_cons_self _ _)
                            rw [← hn]
                            have ht : m0.value.toQ = qq := by
                              rw [hq1]
                              rfl
                            rw [ht]
                            exact pyInt_nonneg hq0
  · intro dd sensor base hiq h0
    constructor
    · intro p hp q hq
      exfalso
      unfold derive_column_data at hp
      dsimp only at hp
      by_cases hs : sensor = "TEMPO"
      · rw [if_pos hs] at hp
        simp only [List.mem_append, List.mem_cons, List.not_mem_nil,
          or_false] at hp
        rcases hp with (h | h) | h
        all_goals rw [h] at hq
        all_goals simp at hq
      · rw [if_neg hs] at hp
        simp only [List.mem_cons, List.not_mem_nil, or_false] at hp
        rcases hp with h | h
        all_goals rw [h] at hq
        all_goals simp at hq
    · intro n hn
      have h : (derive_column_data dd sensor base).iqa
          = some (pyInt (pm25Base base * dd.iqa)) := rfl
      rw [h] at hn
      injection hn with hn
      rw [← hn]
      exact pyInt_nonneg (mul_nonneg h0 (by linarith))

/-- C8 witness: the invariant instantiated at concrete draws, an empty
successful payload and an empty base mapping. -/
theorem C8_readings_invariant_witness :
    (generate_fallback_data fd0 "Lisboa").NumericInv ∧
    (get_openaq_data (some "chave") (Except.ok ⟨[]⟩) fd0 "1" "2").NumericInv ∧
    (derive_column_data dd0 "TEMPO" []).NumericInv :=
  ⟨C8_readings_invariant.1 fd0 "Lisboa" fd0_valid,
   C8_readings_invariant.2.1 (some "chave") (Except.ok ⟨[]⟩) fd0 "1" "2"
     fd0_valid
     (by
       intro data hd r hr
       injection hd with hd
       rw [← hd] at hr
       simp at hr),
   C8_readings_invariant.2.2 dd0 "TEMPO" [] (by norm_num [dd0])
     (by norm_num [pm25Base])⟩

/-- C9: once both coordinates are present and non-empty, the dashboard
endpoint returns, on every code path (any credential state, any network
outcome, any draws), a document with exactly three sensor entries and a
forecast of at least 10. -/
theorem C9_dashboard_shape :
    ∀ (apiKey : Option String) (net : Except Unit Payload)
      (dr : DashboardDraws) (lat lon : Option String),
      ¬ lat.getD "" = "" → ¬ lon.getD "" = "" →
      ∃ data : DashboardData,
        get_dashboard_data apiKey net dr lat lon = Except.ok data ∧
        data.sensors.length = 3 ∧ 10 ≤ data.forecast.predicted_iqa_24h := by
  intro apiKey net dr lat lon hlat hlon
  obtain ⟨n, hn⟩ :=
    get_openaq_data_iqa_isSome apiKey net dr.fd (lat.getD "") (lon.getD "")
  unfold get_dashboard_data
  rw [if_neg (fun hc => hc.elim hlat hlon)]
  refine ⟨_, rfl, rfl, ?_⟩
  dsimp only
  rw [hn]
  simp only [predicted_iqa_24h]
  omega

/-- C9 witness: the dashboard shape at a failed network attempt with no
credential. -/
theorem C9_dashboard_shape_witness :
    ∃ data : DashboardData,
      get_dashboard_data none (Except.error ()) ddr0 (some "38.7") (some "-9.1")
          = Except.ok data ∧
      data.sensors.length = 3 ∧ 10 ≤ data.forecast.predicted_iqa_24h :=
  C9_dashboard_shape none (Except.error ()) ddr0 (some "38.7") (some "-9.1")
    (by decide) (by decide)

/-- C10: the Reading built by derive_column_data carries no location
field, so in every successful dashboard response the two derived sensor
entries lack the location the primary entry carries. -/
theorem C10_derived_no_location :
    (∀ (dd : DeriveDraws) (sensor : String)
      (base : List (String × Measurement)),
      (derive_column_data dd sensor base).location = none) ∧
    (∀ (apiKey : Option String) (net : Except Unit Payload)
      (dr : DashboardDraws) (lat lon : Option String) (data : DashboardData),
      get_dashboard_data apiKey net dr lat lon = Except.ok data →
      ∃ r1 r2 r3 : Reading,
        data.sensors = [("openaq", r1), ("tempo", r2), ("pandora", r3)] ∧
        (∃ s : String, r1.location = some s) ∧
        r2.location = none ∧ r3.location = none) := by
  constructor
  · intro dd sensor base
    rfl
  · intro apiKey net dr lat lon data h
    unfold get_dashboard_data at h
    split at h
    · exact absurd h (by simp)
    · dsimp only at h
      injection h with h
      subst h
      exact ⟨_, _, _, rfl,
        get_openaq_data_location_isSome apiKey net dr.fd (lat.getD "") (lon.getD ""),
        rfl, rfl⟩

/-- C10 witness: the three sensor entries of a concrete dashboard
response, with the derived entries lacking a location. -/
theorem C10_derived_no_location_witness :
    ∃ data : DashboardData,
      get_dashboard_data none (Except.error ()) ddr0 (some "38.7") (some "-9.1")
          = Except.ok data ∧
      ∃ r1 r2 r3 : Reading,
        data.sensors = [("openaq", r1), ("tempo", r2), ("pandora", r3)] ∧
        (∃ s : String, r1.location = some s) ∧
        r2.location = none ∧ r3.location = none :=
  ⟨_, rfl, C10_derived_no_location.2 none (Except.error ()) ddr0
    (some "38.7") (some "-9.1") _ rfl⟩
